import Mathlib

/-! Verification of the reconnecting WebSocket relay (aiCorpBox).

Shallow embedding of the two `WebSocketManager` relay implementations:

* the browser-side relay in `src/services/frontend/public/js/main.js`
  (namespace `ClientRelay` below), and
* the edge (frontend-server) relay in `src/utils/websocketManager.js`
  (namespace `EdgeRelay` below),

together with theorems settling the spec claims about queue flushing,
reconnection policy, correlation handling, idempotent `connect()`,
`disconnect()` behaviour and handler dispatch.

Modelling conventions:

* Envelopes/messages are abstracted as `Nat` (their payload identity is
  irrelevant to the claims); `frontend_message_id` correlation ids are `Nat`.
* Each JS method becomes a pure state transformer on a record holding the
  instance fields of the class, plus observability fields (`sent` is the
  transcript of frames given to `ws.send`, `timers` the delays of scheduled
  reconnect `setTimeout`s, `transportsCreated` counts `new WebSocket(...)`
  constructions, `thrownErrors` counts exceptions escaping a callback).
* `readyState` of the transport is consulted through the `ws` field; during
  the flush loop the live value of `this.ws && this.ws.readyState === OPEN`
  at each iteration is supplied by an oracle `List Bool` (head = value at the
  current check), which models the connection dropping mid-flush.
* JS promise resolution is once-only: a second `resolve` is a no-op, which
  the model renders with `Option.getD` on an already-present resolution.
-/

/-- Transport readyState values of a WebSocket object. -/
inductive ReadyState where
  | CONNECTING
  | OPEN
  | CLOSING
  | CLOSED
deriving DecidableEq, Repr

namespace ClientRelay

/-- Instance state of the browser-side `WebSocketManager` (main.js 1071-1387).
`ws = none` models `this.ws === null`; `some r` a transport with readyState
`r`.  `sent`, `timers`, `transportsCreated`, `notifiedExhausted` are
observability fields recording the externally visible effects. -/
structure WebSocketManager where
  ws : Option ReadyState
  isConnecting : Bool
  reconnectAttempts : Nat
  messageQueue : List Nat
  sent : List Nat
  timers : List Nat
  transportsCreated : Nat
  notifiedExhausted : Bool
deriving DecidableEq, Repr

/-- `this.reconnectInterval = 5000` (main.js 1074). -/
def reconnectInterval : Nat := 5000

/-- `this.maxReconnectAttempts = 10` (main.js 1075). -/
def maxReconnectAttempts : Nat := 10

/-- `connect()` (main.js 1093-1110): no-op if `isConnecting` or the transport
is `OPEN`; otherwise sets `isConnecting` and constructs a fresh transport
(`new WebSocket(wsUrl)`, whose readyState starts at `CONNECTING`). -/
def connect (s : WebSocketManager) : WebSocketManager :=
  if s.isConnecting = true ∨ s.ws = some ReadyState.OPEN then s
  else
    { s with isConnecting := true
             ws := some ReadyState.CONNECTING
             transportsCreated := s.transportsCreated + 1 }

/-- `scheduleReconnect()` (main.js 1246-1265): increments the attempt counter,
then registers one timer with delay
`Math.min(this.reconnectInterval * this.reconnectAttempts, 30000)`. -/
def scheduleReconnect (s : WebSocketManager) : WebSocketManager :=
  { s with reconnectAttempts := s.reconnectAttempts + 1
           timers := s.timers ++
             [min (reconnectInterval * (s.reconnectAttempts + 1)) 30000] }

/-- Body of the `setTimeout` callback registered by `scheduleReconnect`
(main.js 1252-1264): `if (reconnectAttempts <= maxReconnectAttempts)
connect(); else` show the terminal "connection could not be restored"
notification. -/
def reconnectTimerFire (s : WebSocketManager) : WebSocketManager :=
  if s.reconnectAttempts ≤ maxReconnectAttempts then connect s
  else { s with notifiedExhausted := true }

/-- `flushMessageQueue()` (main.js 1229-1241): while the queue is nonempty,
`shift()` a message; if `this.ws && this.ws.readyState === OPEN` (value given
by the head of the oracle) transmit it, otherwise `unshift` it back and
break.  Returns the remaining queue and the extended transcript. -/
def flushMessageQueue : List Bool → List Nat → List Nat → List Nat × List Nat
  | _, [], snt => ([], snt)
  | [], m :: rest, snt => (m :: rest, snt)
  | b :: bs, m :: rest, snt =>
      if b then flushMessageQueue bs rest (snt ++ [m])
      else (m :: rest, snt)

/-- `ws.onopen` handler (main.js 1116-1131): clears `isConnecting`, resets the
attempt counter to 0, and flushes the queue (oracle as in
`flushMessageQueue`). -/
def onOpenHandler (ok : List Bool) (s : WebSocketManager) : WebSocketManager :=
  let s1 := { s with isConnecting := false, reconnectAttempts := 0 }
  let fq := flushMessageQueue ok s1.messageQueue s1.sent
  { s1 with messageQueue := fq.1, sent := fq.2 }

/-- `ws.onclose` handler (main.js 1143-1158): clears `isConnecting`; schedules
a reconnect only when `event.code !== 1000` and
`reconnectAttempts < maxReconnectAttempts`. -/
def onCloseHandler (code : Nat) (s : WebSocketManager) : WebSocketManager :=
  let s1 := { s with isConnecting := false }
  if code ≠ 1000 ∧ s1.reconnectAttempts < maxReconnectAttempts then
    scheduleReconnect s1
  else s1

/-- `send(data)` (main.js 1203-1224): transmit immediately when the transport
is `OPEN` and return `true`; otherwise push onto `messageQueue`, call
`connect()` when not already connecting, and return `false`. -/
def send (m : Nat) (s : WebSocketManager) : WebSocketManager × Bool :=
  if s.ws = some ReadyState.OPEN then
    ({ s with sent := s.sent ++ [m] }, true)
  else
    let s1 := { s with messageQueue := s.messageQueue ++ [m] }
    if s1.isConnecting = false then (connect s1, false) else (s1, false)

/-- `disconnect()` (main.js 1293-1299): when a transport exists, sets the
attempt counter to the maximum ("prevent reconnection"), calls
`ws.close(1000, ...)` and nulls `this.ws`.  Note: no scheduled timer is
cancelled (there is no `clearTimeout` anywhere in the class). -/
def disconnect (s : WebSocketManager) : WebSocketManager :=
  match s.ws with
  | none => s
  | some _ => { s with reconnectAttempts := maxReconnectAttempts, ws := none }

end ClientRelay

namespace EdgeRelay

/-- Possible resolution values of the promise returned by `proxyMessage`
(websocketManager.js): the matching gateway response, the 30-second timeout
error object, or the immediate `'queued'` acknowledgement. -/
inductive EdgeRes where
  | response (payload : Nat)
  | timeoutError
  | queuedAck
deriving DecidableEq, Repr

/-- One correlated request created by the open-connection branch of
`proxyMessage`: its `frontend_message_id`, whether its `responseHandler` is
still attached (`gatewayWs.on('message', ...)`), whether its 30s `setTimeout`
is still pending, and the promise's resolution (`none` = still pending). -/
structure PendingEntry where
  mid : Nat
  listener : Bool
  timer : Bool
  resolved : Option EdgeRes
deriving DecidableEq, Repr

/-- Instance state of the server-side `WebSocketManager`
(`src/utils/websocketManager.js`, required by `server_clean.js`).
`gatewayWs = none` models `this.gatewayWs === null`.  `pending` collects the
correlated requests created by `proxyMessage`; `sent` is the transcript of
frames passed to `gatewayWs.send`; `timersReconnect` the delays of scheduled
reconnect timers; `thrownErrors` counts exceptions thrown out of callbacks
(e.g. dereferencing a nulled `gatewayWs`). -/
structure WebSocketManager where
  gatewayWs : Option ReadyState
  reconnectAttempts : Nat
  isConnecting : Bool
  messageQueue : List Nat
  pending : List PendingEntry
  sent : List Nat
  timersReconnect : List Nat
  transportsCreated : Nat
  thrownErrors : Nat
deriving DecidableEq, Repr

/-- `this.reconnectInterval = 5000`. -/
def reconnectInterval : Nat := 5000

/-- `this.maxReconnectAttempts = 10`. -/
def maxReconnectAttempts : Nat := 10

/-- `connectToGateway()` (websocketManager.js 21-60): returns immediately when
`isConnecting` or the gateway transport is `OPEN`; otherwise sets
`isConnecting` and constructs a fresh transport. -/
def connectToGateway (s : WebSocketManager) : WebSocketManager :=
  if s.isConnecting = true ∨ s.gatewayWs = some ReadyState.OPEN then s
  else
    { s with isConnecting := true
             gatewayWs := some ReadyState.CONNECTING
             transportsCreated := s.transportsCreated + 1 }

/-- `scheduleReconnect()` (websocketManager.js 65-79): returns without
scheduling when `reconnectAttempts >= maxReconnectAttempts`; otherwise
increments the counter and registers one timer with delay
`Math.min(this.reconnectInterval * this.reconnectAttempts, 30000)`. -/
def scheduleReconnect (s : WebSocketManager) : WebSocketManager :=
  if maxReconnectAttempts ≤ s.reconnectAttempts then s
  else
    { s with reconnectAttempts := s.reconnectAttempts + 1
             timersReconnect := s.timersReconnect ++
               [min (reconnectInterval * (s.reconnectAttempts + 1)) 30000] }

/-- `gatewayWs.on('close', ...)` handler (websocketManager.js 43-47): clears
`isConnecting` and calls `scheduleReconnect()` unconditionally (the close
code is not consulted; capping happens inside `scheduleReconnect`). -/
def onCloseHandler (s : WebSocketManager) : WebSocketManager :=
  scheduleReconnect { s with isConnecting := false }

/-- `flushMessageQueue()` (websocketManager.js 84-89): while the queue is
nonempty and `gatewayWs && gatewayWs.readyState === OPEN` (head of the
oracle), `shift()` and transmit. -/
def flushMessageQueue : List Bool → List Nat → List Nat → List Nat × List Nat
  | _, [], snt => ([], snt)
  | [], q, snt => (q, snt)
  | b :: bs, m :: rest, snt =>
      if b then flushMessageQueue bs rest (snt ++ [m])
      else (m :: rest, snt)

/-- `proxyMessage(data)` (websocketManager.js 94-143).  First, when the
gateway transport is not `OPEN`, `await this.connectToGateway()`.  Then, in
the promise executor: if the transport is `OPEN`, transmit the id-stamped
message and register a `responseHandler` listener plus a 30s timeout (a new
`PendingEntry`, promise unresolved, second component `none`); otherwise push
the message onto `messageQueue` and resolve immediately with the `'queued'`
acknowledgement.  `m` is the message, `mid` the generated
`frontend_message_id`. -/
def proxyMessage (s : WebSocketManager) (m mid : Nat) :
    WebSocketManager × Option EdgeRes :=
  let s1 := if s.gatewayWs = some ReadyState.OPEN then s else connectToGateway s
  if s1.gatewayWs = some ReadyState.OPEN then
    ({ s1 with sent := s1.sent ++ [m]
               pending := s1.pending ++ [⟨mid, true, true, none⟩] }, none)
  else
    ({ s1 with messageQueue := s1.messageQueue ++ [m] }, some EdgeRes.queuedAck)

/-- A `'message'` frame with `frontend_message_id = x` arriving from the
gateway (websocketManager.js 109-121): every still-attached
`responseHandler` parses it; the one whose id matches removes itself and
resolves its promise with the response (a second resolution of an
already-settled promise would be a no-op, hence `Option.getD`).  With no
transport (`gatewayWs = none`) nothing can arrive. -/
def gatewayMessageArrive (s : WebSocketManager) (x payload : Nat) :
    WebSocketManager :=
  match s.gatewayWs with
  | none => s
  | some _ =>
      { s with pending := s.pending.map (fun p =>
          if p.listener = true ∧ p.mid = x then
            { p with listener := false
                     resolved := some (p.resolved.getD (EdgeRes.response payload)) }
          else p) }

/-- The 30-second `setTimeout` callback of the request with id `x`
(websocketManager.js 124-131): it runs
`this.gatewayWs.removeListener('message', responseHandler)` and then resolves
with the timeout error.  When `this.gatewayWs` is `null` (after
`disconnect()`), the `removeListener` call dereferences `null` and throws, so
`resolve` is never reached and the promise stays pending. -/
def requestTimeoutFire (s : WebSocketManager) (x : Nat) : WebSocketManager :=
  match s.gatewayWs with
  | none => { s with thrownErrors := s.thrownErrors + 1 }
  | some _ =>
      { s with pending := s.pending.map (fun p =>
          if p.mid = x then
            { p with listener := false
                     timer := false
                     resolved := some (p.resolved.getD EdgeRes.timeoutError) }
          else p) }

/-- `disconnect()` (websocketManager.js 199-205): when a transport exists,
sets the attempt counter to the maximum ("prevent reconnection"), calls
`gatewayWs.close(1000, 'Frontend service shutdown')` and nulls
`this.gatewayWs`.  Pending entries are not touched and no timer is
cancelled. -/
def disconnect (s : WebSocketManager) : WebSocketManager :=
  match s.gatewayWs with
  | none => s
  | some _ =>
      { s with reconnectAttempts := maxReconnectAttempts, gatewayWs := none }

end EdgeRelay

namespace ClientRelay

/-- One outbound-queue event of the client relay: `enq m` is the
`messageQueue.push(message)` performed by `send` while the transport is not
`OPEN` (main.js 1216); `flush ok` is an `onopen`-triggered
`flushMessageQueue()` run whose per-iteration openness checks are given by
the oracle `ok`. -/
inductive QOp where
  | enq (m : Nat)
  | flush (ok : List Bool)

/-- Runs a sequence of queue events against a queue and a transcript of
transmitted frames, using the source `flushMessageQueue`. -/
def runQueueOps : List QOp → List Nat → List Nat → List Nat × List Nat
  | [], q, snt => (q, snt)
  | QOp.enq m :: ops, q, snt => runQueueOps ops (q ++ [m]) snt
  | QOp.flush ok :: ops, q, snt =>
      runQueueOps ops (flushMessageQueue ok q snt).1 (flushMessageQueue ok q snt).2

/-- The messages enqueued by a sequence of queue events, in call order. -/
def enqList : List QOp → List Nat
  | [] => []
  | QOp.enq m :: ops => m :: enqList ops
  | QOp.flush _ :: ops => enqList ops

/-- One subscriber registered via `on(event, handler)`: its identity and its
body, which either returns normally (`none`) or throws an exception
(`some e`). -/
structure Handler where
  hid : Nat
  run : Nat → Option Nat

/-- The dispatch loop of `emit(event, data)` (main.js 1334-1344), invoking
the registered handlers in list order.  `catchEach = true` reflects the
`try { handler(data) } catch (error) { console.error(...) }` wrapper around
every call in the source: a throwing handler is logged and the loop
continues.  With `catchEach = false` (no such wrapper) the first exception
would abort the loop and propagate.  Returns the ids of the handlers that
were invoked and the exception, if any, that escaped the loop. -/
def runHandlers (catchEach : Bool) : List Handler → Nat → List Nat × Option Nat
  | [], _ => ([], none)
  | h :: hs, d =>
      match h.run d with
      | none =>
          let r := runHandlers catchEach hs d
          (h.hid :: r.1, r.2)
      | some e =>
          if catchEach then
            let r := runHandlers catchEach hs d
            (h.hid :: r.1, r.2)
          else ([h.hid], some e)

/-- `emit(event, data)` as in the source: every call is wrapped in
try/catch. -/
def emit (hs : List Handler) (d : Nat) : List Nat × Option Nat :=
  runHandlers true hs d

/-- `on(event, handler)` (main.js 1311-1316) pushes the handler onto the
per-event list, so handlers are stored in subscription order. -/
def onRegister (hs : List Handler) (h : Handler) : List Handler :=
  hs ++ [h]

/-- Registering a sequence of handlers one by one via `on`. -/
def registerAll (hs : List Handler) : List Handler :=
  hs.foldl onRegister []

/-- The event name `handleMessage(data)` (main.js 1169-1198) dispatches an
inbound envelope of the given `type` to: each known type is emitted under
its camelCase event, anything else under `'message'`.  Every inbound
envelope is dispatched; there is no correlation lookup in the client. -/
def handleMessageEvent (ty : String) : String :=
  if ty = "chat_response" then "chatResponse"
  else if ty = "agent_progress" then "agentProgress"
  else if ty = "rag_search_result" then "ragSearchResult"
  else if ty = "system_notification" then "systemNotification"
  else if ty = "error" then "error"
  else "message"

/-- Lookup of the handler list registered for an event name in
`this.eventHandlers` (a `Map`). -/
def handlersFor : List (String × List Handler) → String → List Handler
  | [], _ => []
  | (e, hs) :: rest, ev => if e = ev then hs else handlersFor rest ev

/-- Full inbound dispatch of the client relay: `ws.onmessage` →
`handleMessage` → `emit`; returns the ids of the type handlers invoked for
the envelope. -/
def dispatchMessage (table : List (String × List Handler)) (ty : String)
    (d : Nat) : List Nat :=
  (emit (handlersFor table (handleMessageEvent ty)) d).1

end ClientRelay

namespace ClientRelay

/-- A flush run moves a prefix of the queue onto the end of the transcript:
transcript-then-queue is invariant under `flushMessageQueue`. -/
theorem flushMessageQueue_eq (ok : List Bool) (q snt : List Nat) :
    (flushMessageQueue ok q snt).2 ++ (flushMessageQueue ok q snt).1 = snt ++ q := by
  induction q generalizing ok snt with
  | nil => cases ok <;> simp [flushMessageQueue]
  | cons m rest ih =>
      cases ok with
      | nil => simp [flushMessageQueue]
      | cons b bs =>
          cases b with
          | false => simp [flushMessageQueue]
          | true => simp [flushMessageQueue, ih]

/-- Transcript-then-queue after any sequence of queue events equals the
initial transcript-then-queue followed by the enqueued messages in call
order. -/
theorem runQueueOps_eq (ops : List QOp) (q snt : List Nat) :
    (runQueueOps ops q snt).2 ++ (runQueueOps ops q snt).1
      = snt ++ q ++ enqList ops := by
  induction ops generalizing q snt with
  | nil => simp [runQueueOps, enqList]
  | cons op ops ih =>
      cases op with
      | enq m =>
          rw [runQueueOps, ih, enqList]
          simp
      | flush ok =>
          rw [runQueueOps, ih, flushMessageQueue_eq, enqList]

/-- `foldl onRegister` appends the handlers in order. -/
theorem foldl_onRegister (hs : List Handler) (acc : List Handler) :
    hs.foldl onRegister acc = acc ++ hs := by
  induction hs generalizing acc with
  | nil => simp
  | cons h hs ih => simp [onRegister, ih]

/-- `emit` invokes every handler in list order and lets no exception
escape. -/
theorem emit_spec (hs : List Handler) (d : Nat) :
    (emit hs d).1 = hs.map Handler.hid ∧ (emit hs d).2 = none := by
  induction hs with
  | nil => simp [emit, runHandlers]
  | cons h hs ih =>
      simp only [emit, runHandlers] at ih ⊢
      cases hr : h.run d <;> simp [hr, ih]

end ClientRelay

namespace EdgeRelay

/-- The edge flush also moves a prefix of the queue onto the transcript. -/
theorem flushGatewayQueue_eq (ok : List Bool) (q snt : List Nat) :
    (flushMessageQueue ok q snt).2 ++ (flushMessageQueue ok q snt).1 = snt ++ q := by
  induction q generalizing ok snt with
  | nil => cases ok <;> simp [flushMessageQueue]
  | cons m rest ih =>
      cases ok with
      | nil => simp [flushMessageQueue]
      | cons b bs =>
          cases b with
          | false => simp [flushMessageQueue]
          | true => simp [flushMessageQueue, ih]

/-- The per-entry update applied by `gatewayMessageArrive` fixes every entry
whose id differs from the arriving id. -/
theorem arrive_map_not_mem (l : List PendingEntry) (x payload : Nat)
    (h : x ∉ l.map PendingEntry.mid) :
    l.map (fun p =>
        if p.listener = true ∧ p.mid = x then
          { p with listener := false
                   resolved := some (p.resolved.getD (EdgeRes.response payload)) }
        else p) = l := by
  induction l with
  | nil => rfl
  | cons p rest ih =>
      have h1 : ¬ p.mid = x := by
        intro he
        exact h (by simp [he])
      have h2 : x ∉ rest.map PendingEntry.mid := by
        intro hm
        exact h (by simp [hm])
      simp [h1, ih h2]

/-- An inbound frame whose id matches no pending entry leaves the whole
relay state unchanged. -/
theorem gatewayMessageArrive_not_mem (s : WebSocketManager) (x payload : Nat)
    (h : x ∉ s.pending.map PendingEntry.mid) :
    gatewayMessageArrive s x payload = s := by
  unfold gatewayMessageArrive
  split
  · rfl
  · rw [arrive_map_not_mem s.pending x payload h]

/-- `connectToGateway` never produces an `OPEN` transport out of a
non-`OPEN` one, and touches neither queue nor pending table. -/
theorem connectToGateway_not_open (s : WebSocketManager)
    (h : s.gatewayWs ≠ some ReadyState.OPEN) :
    (connectToGateway s).gatewayWs ≠ some ReadyState.OPEN
    ∧ (connectToGateway s).messageQueue = s.messageQueue
    ∧ (connectToGateway s).pending = s.pending := by
  unfold connectToGateway
  split
  · exact ⟨h, rfl, rfl⟩
  · exact ⟨by simp, rfl, rfl⟩

end EdgeRelay

/-- C1: messages sent while the connection is not `OPEN` are appended to the
outbound queue in call order; each flush transmits from the front in FIFO
order, and a mid-flush drop leaves the untransmitted messages at the front
of the queue in their original order.  Formally: after any sequence of
enqueues and (arbitrarily interrupted) flush runs, the transmitted
transcript followed by the remaining queue equals the initial
transcript-plus-queue followed by all enqueued messages in call order — so
the peer observes every queued message in send order, before any message
queued later.  The third conjunct states the same flush invariant for the
edge relay's `flushMessageQueue`. -/
theorem C1_fifo_preserved_across_reconnects :
    (∀ (ops : List ClientRelay.QOp) (q0 snt0 : List Nat),
        (ClientRelay.runQueueOps ops q0 snt0).2
            ++ (ClientRelay.runQueueOps ops q0 snt0).1
          = snt0 ++ q0 ++ ClientRelay.enqList ops)
    ∧ (∀ (s : ClientRelay.WebSocketManager) (m : Nat),
        ((ClientRelay.send m s).1).messageQueue
          = if s.ws = some ReadyState.OPEN then s.messageQueue
            else s.messageQueue ++ [m])
    ∧ (∀ (ok : List Bool) (q snt : List Nat),
        (EdgeRelay.flushMessageQueue ok q snt).2
            ++ (EdgeRelay.flushMessageQueue ok q snt).1
          = snt ++ q) := by
  refine ⟨fun ops q0 snt0 => ClientRelay.runQueueOps_eq ops q0 snt0, ?_,
    fun ok q snt => EdgeRelay.flushGatewayQueue_eq ok q snt⟩
  intro s m
  by_cases h : s.ws = some ReadyState.OPEN
  · simp [ClientRelay.send, h]
  · simp only [ClientRelay.send, ClientRelay.connect, h, if_false]
    split_ifs <;> simp

/-- C7: `connect()` is idempotent while already `CONNECTING`
(`isConnecting`) or `OPEN`: the state is returned unchanged — no second
transport is constructed (`transportsCreated` unchanged) and no flush is
triggered (`connect` never flushes).  Both relay instances. -/
theorem C7_connect_idempotent (s : ClientRelay.WebSocketManager)
    (t : EdgeRelay.WebSocketManager) :
    (s.isConnecting = true ∨ s.ws = some ReadyState.OPEN →
        ClientRelay.connect s = s)
    ∧ (t.isConnecting = true ∨ t.gatewayWs = some ReadyState.OPEN →
        EdgeRelay.connectToGateway t = t) := by
  constructor
  · intro h
    unfold ClientRelay.connect
    rw [if_pos h]
  · intro h
    unfold EdgeRelay.connectToGateway
    rw [if_pos h]

/-- Witness for C7 at concrete open states of both relays. -/
theorem C7_connect_idempotent_witness :
    ClientRelay.connect ⟨some ReadyState.OPEN, false, 0, [7], [], [], 1, false⟩
      = ⟨some ReadyState.OPEN, false, 0, [7], [], [], 1, false⟩
    ∧ EdgeRelay.connectToGateway
        ⟨some ReadyState.OPEN, 0, false, [], [], [], [], 1, 0⟩
      = ⟨some ReadyState.OPEN, 0, false, [], [], [], [], 1, 0⟩ := by
  have h := C7_connect_idempotent
    ⟨some ReadyState.OPEN, false, 0, [7], [], [], 1, false⟩
    ⟨some ReadyState.OPEN, 0, false, [], [], [], [], 1, 0⟩
  exact ⟨h.1 (Or.inr rfl), h.2 (Or.inr rfl)⟩

/-- C9: handlers registered via `on` are kept in subscription order, `emit`
invokes every registered handler for the event in that order, and a handler
exception is caught by the per-call try/catch so it neither prevents the
remaining invocations nor escapes into the receive loop (`emit` propagates
no exception). -/
theorem C9_handler_isolation (hs : List ClientRelay.Handler) (d : Nat) :
    ClientRelay.registerAll hs = hs
    ∧ (ClientRelay.emit hs d).1 = hs.map ClientRelay.Handler.hid
    ∧ (ClientRelay.emit hs d).2 = none := by
  refine ⟨?_, (ClientRelay.emit_spec hs d).1, (ClientRelay.emit_spec hs d).2⟩
  unfold ClientRelay.registerAll
  rw [ClientRelay.foldl_onRegister]
  simp

/-- C2 counterexample: the claim "exactly one of {matching response,
timeout, shutdown failure} resolves the handle" fails on a concrete run.  A
request is proxied while the gateway connection is `OPEN` (pending entry
created, promise unresolved), then `disconnect()` is called, then the
request's 30s timer fires.  The timer callback dereferences the nulled
`gatewayWs` and throws before reaching `resolve`, so after all three
possible resolution events have come and gone the promise is still
unresolved: zero of the three outcomes resolved it, and no
shutdown/connection-closed resolution exists anywhere in the code. -/
theorem C2_counterexample_never_resolved :
    ((EdgeRelay.requestTimeoutFire
        (EdgeRelay.disconnect
          (EdgeRelay.proxyMessage
            ⟨some ReadyState.OPEN, 0, false, [], [], [], [], 1, 0⟩ 5 1).1) 1).pending.map
      (fun p => p.resolved)) = [none]
    ∧ (EdgeRelay.requestTimeoutFire
        (EdgeRelay.disconnect
          (EdgeRelay.proxyMessage
            ⟨some ReadyState.OPEN, 0, false, [], [], [], [], 1, 0⟩ 5 1).1) 1).thrownErrors
      = 1 := by decide

/-- C2 (amended): as long as the connection is not torn down by
`disconnect()` before they run, the resolution events of a pending
correlated request are at-most-once and first-wins: if the matching response
arrives first, the promise resolves with the response and the later timeout
is a no-op; if the timeout fires first, the promise resolves with the
timeout failure and the later response is ignored.  (There is no shutdown
resolution arm; after `disconnect()` the promise is never resolved — see the
counterexample.) -/
theorem C2_first_resolution_wins (s : EdgeRelay.WebSocketManager)
    (x payload : Nat) (w : ReadyState)
    (hw : s.gatewayWs = some w)
    (hp : s.pending = [⟨x, true, true, none⟩]) :
    (EdgeRelay.requestTimeoutFire
        (EdgeRelay.gatewayMessageArrive s x payload) x).pending
      = [⟨x, false, false, some (EdgeRelay.EdgeRes.response payload)⟩]
    ∧ (EdgeRelay.gatewayMessageArrive
        (EdgeRelay.requestTimeoutFire s x) x payload).pending
      = [⟨x, false, false, some EdgeRelay.EdgeRes.timeoutError⟩] := by
  constructor
  · simp [EdgeRelay.gatewayMessageArrive, EdgeRelay.requestTimeoutFire, hw, hp]
  · simp [EdgeRelay.gatewayMessageArrive, EdgeRelay.requestTimeoutFire, hw, hp]

/-- Witness for C2 (amended) at a concrete pending request. -/
theorem C2_first_resolution_wins_witness :
    (EdgeRelay.requestTimeoutFire
        (EdgeRelay.gatewayMessageArrive
          ⟨some ReadyState.OPEN, 0, false, [], [⟨3, true, true, none⟩], [], [], 1, 0⟩
          3 9) 3).pending
      = [⟨3, false, false, some (EdgeRelay.EdgeRes.response 9)⟩]
    ∧ (EdgeRelay.gatewayMessageArrive
        (EdgeRelay.requestTimeoutFire
          ⟨some ReadyState.OPEN, 0, false, [], [⟨3, true, true, none⟩], [], [], 1, 0⟩
          3) 3 9).pending
      = [⟨3, false, false, some EdgeRelay.EdgeRes.timeoutError⟩] :=
  C2_first_resolution_wins
    ⟨some ReadyState.OPEN, 0, false, [], [⟨3, true, true, none⟩], [], [], 1, 0⟩
    3 9 ReadyState.OPEN rfl rfl

/-- C3 counterexample: `disconnect()` is called while three correlated
requests are pending; immediately afterwards all three are still
unresolved (`resolved = none`), whereas the claim demands they resolve
immediately with a connection-closed (`ShutdownError`) failure.  No such
resolution value exists anywhere in the code. -/
theorem C3_counterexample_pending_survive_disconnect :
    ((EdgeRelay.disconnect
        ⟨some ReadyState.OPEN, 0, false, [],
          [⟨1, true, true, none⟩, ⟨2, true, true, none⟩, ⟨3, true, true, none⟩],
          [], [], 1, 0⟩).pending.map (fun p => p.resolved))
      = [none, none, none] := by decide

/-- C3 (amended): `disconnect()` does not resolve pending correlated
requests — it leaves every pending entry untouched; and because it nulls
`this.gatewayWs`, each pending request's 30-second timeout callback
subsequently throws on the null dereference instead of resolving, so the
pending requests are never resolved at all (neither a shutdown failure nor
even their own timeout). -/
theorem C3_disconnect_never_resolves_pending (s : EdgeRelay.WebSocketManager)
    (w : ReadyState) (x : Nat) (hw : s.gatewayWs = some w) :
    (EdgeRelay.disconnect s).pending = s.pending
    ∧ (EdgeRelay.requestTimeoutFire (EdgeRelay.disconnect s) x).pending
        = s.pending
    ∧ (EdgeRelay.requestTimeoutFire (EdgeRelay.disconnect s) x).thrownErrors
        = s.thrownErrors + 1 := by
  unfold EdgeRelay.disconnect
  rw [hw]
  simp [EdgeRelay.requestTimeoutFire]

/-- Witness for C3 (amended) at a concrete state with one pending request. -/
theorem C3_disconnect_never_resolves_pending_witness :
    (EdgeRelay.disconnect
        ⟨some ReadyState.OPEN, 0, false, [], [⟨4, true, true, none⟩], [], [], 1, 0⟩).pending
      = [⟨4, true, true, none⟩]
    ∧ (EdgeRelay.requestTimeoutFire
        (EdgeRelay.disconnect
          ⟨some ReadyState.OPEN, 0, false, [], [⟨4, true, true, none⟩], [], [], 1, 0⟩) 4).pending
      = [⟨4, true, true, none⟩]
    ∧ (EdgeRelay.requestTimeoutFire
        (EdgeRelay.disconnect
          ⟨some ReadyState.OPEN, 0, false, [], [⟨4, true, true, none⟩], [], [], 1, 0⟩) 4).thrownErrors
      = 0 + 1 :=
  C3_disconnect_never_resolves_pending
    ⟨some ReadyState.OPEN, 0, false, [], [⟨4, true, true, none⟩], [], [], 1, 0⟩
    ReadyState.OPEN 4 rfl

/-- C8 counterexample: in the client relay — which the claim's sources also
cite — an inbound response envelope (`type: 'chat_response'`, carrying a
correlation id) necessarily matches no pending entry, because the client
keeps no correlation table at all; yet `handleMessage` dispatches it to the
handlers registered for `'chatResponse'`: here the registered handler with
id 7 is invoked, contradicting "dropped … without being dispatched
(broadcast) to any registered type handlers". -/
theorem C8_counterexample_client_broadcasts :
    ClientRelay.dispatchMessage
      [("chatResponse", [⟨7, fun _ => none⟩])] "chat_response" 42 = [7] := by
  rfl

/-- C8 (amended): at the edge relay — the relay instance that owns the
correlation table — an inbound envelope whose `frontend_message_id` matches
no currently-pending entry leaves the relay state completely unchanged: no
entry is resolved, no error is raised (`thrownErrors` unchanged), and
nothing is dispatched (the edge relay has no type-handler broadcast).  The
client relay, by contrast, dispatches every inbound envelope to the
handlers registered for its type (see the counterexample). -/
theorem C8_unmatched_response_dropped (s : EdgeRelay.WebSocketManager)
    (x payload : Nat)
    (h : x ∉ s.pending.map EdgeRelay.PendingEntry.mid) :
    EdgeRelay.gatewayMessageArrive s x payload = s :=
  EdgeRelay.gatewayMessageArrive_not_mem s x payload h

/-- Witness for C8 (amended): a frame with id 6 arriving while only id 5 is
pending changes nothing. -/
theorem C8_unmatched_response_dropped_witness :
    EdgeRelay.gatewayMessageArrive
      ⟨some ReadyState.OPEN, 0, false, [], [⟨5, true, true, none⟩], [], [], 1, 0⟩ 6 0
    = ⟨some ReadyState.OPEN, 0, false, [], [⟨5, true, true, none⟩], [], [], 1, 0⟩ :=
  C8_unmatched_response_dropped
    ⟨some ReadyState.OPEN, 0, false, [], [⟨5, true, true, none⟩], [], [], 1, 0⟩
    6 0 (by decide)

/-- C10: calling `proxyMessage` while the gateway connection is not `OPEN`
resolves the returned promise immediately with the `'queued'`
acknowledgement, appends the message to the outbound queue, and attaches no
resolver (the pending table is unchanged); consequently, when the message is
later flushed and the gateway's response with the same
`frontend_message_id` arrives, it matches no pending entry and resolves
nothing — the caller never receives the backend's response. -/
theorem C10_queued_request_response_lost (s : EdgeRelay.WebSocketManager)
    (m mid payload : Nat)
    (hopen : s.gatewayWs ≠ some ReadyState.OPEN)
    (hfresh : mid ∉ s.pending.map EdgeRelay.PendingEntry.mid) :
    (EdgeRelay.proxyMessage s m mid).2 = some EdgeRelay.EdgeRes.queuedAck
    ∧ (EdgeRelay.proxyMessage s m mid).1.messageQueue = s.messageQueue ++ [m]
    ∧ (EdgeRelay.proxyMessage s m mid).1.pending = s.pending
    ∧ EdgeRelay.gatewayMessageArrive
        { (EdgeRelay.proxyMessage s m mid).1 with gatewayWs := some ReadyState.OPEN }
        mid payload
      = { (EdgeRelay.proxyMessage s m mid).1 with gatewayWs := some ReadyState.OPEN } := by
  obtain ⟨hg, hq, hp⟩ := EdgeRelay.connectToGateway_not_open s hopen
  have hbranch : EdgeRelay.proxyMessage s m mid
      = ({ EdgeRelay.connectToGateway s with
             messageQueue := (EdgeRelay.connectToGateway s).messageQueue ++ [m] },
         some EdgeRelay.EdgeRes.queuedAck) := by
    unfold EdgeRelay.proxyMessage
    rw [if_neg hopen, if_neg hg]
  rw [hbranch]
  refine ⟨rfl, by rw [hq], hp, ?_⟩
  apply EdgeRelay.gatewayMessageArrive_not_mem
  simpa [hp] using hfresh

/-- Witness for C10 with a closed gateway connection and a fresh id. -/
theorem C10_queued_request_response_lost_witness :
    (EdgeRelay.proxyMessage
        ⟨some ReadyState.CLOSED, 2, false, [8], [], [], [], 1, 0⟩ 5 9).2
      = some EdgeRelay.EdgeRes.queuedAck
    ∧ (EdgeRelay.proxyMessage
        ⟨some ReadyState.CLOSED, 2, false, [8], [], [], [], 1, 0⟩ 5 9).1.messageQueue
      = [8] ++ [5]
    ∧ (EdgeRelay.proxyMessage
        ⟨some ReadyState.CLOSED, 2, false, [8], [], [], [], 1, 0⟩ 5 9).1.pending
      = []
    ∧ EdgeRelay.gatewayMessageArrive
        { (EdgeRelay.proxyMessage
            ⟨some ReadyState.CLOSED, 2, false, [8], [], [], [], 1, 0⟩ 5 9).1 with
          gatewayWs := some ReadyState.OPEN } 9 0
      = { (EdgeRelay.proxyMessage
            ⟨some ReadyState.CLOSED, 2, false, [8], [], [], [], 1, 0⟩ 5 9).1 with
          gatewayWs := some ReadyState.OPEN } :=
  C10_queued_request_response_lost
    ⟨some ReadyState.CLOSED, 2, false, [8], [], [], [], 1, 0⟩
    5 9 0 (by decide) (by decide)

/-- C4 counterexample: with the attempt counter exhausted
(`reconnectAttempts = 10`, no transport), a manual `connect()` does create a
new transport, but the attempt counter stays at 10 — it is not reset to
zero, contradicting "a subsequent manual connect() call resets the attempt
counter to zero and retries".  (Only a successful `onopen` resets it.) -/
theorem C4_counterexample_connect_keeps_counter :
    (ClientRelay.connect ⟨none, false, 10, [], [], [], 0, false⟩).transportsCreated = 1
    ∧ (ClientRelay.connect ⟨none, false, 10, [], [], [], 0, false⟩).reconnectAttempts = 10
    ∧ ¬ (ClientRelay.connect
          ⟨none, false, 10, [], [], [], 0, false⟩).reconnectAttempts = 0 := by
  decide

/-- C4 (amended): once the attempt counter has reached the maximum (10), a
further non-user close schedules nothing; a scheduled reconnect timer that
fires with the counter above the maximum performs no connection attempt and
instead surfaces the terminal "connection could not be restored"
notification; a subsequent manual `connect()` (not connecting, transport not
open) retries — it constructs a new transport — but leaves the attempt
counter unchanged; the counter is reset to zero only by the `onopen`
handler of a successful connection. -/
theorem C4_reconnect_exhaustion (s : ClientRelay.WebSocketManager)
    (code : Nat) (ok : List Bool) :
    (¬ s.reconnectAttempts < 10 →
        ClientRelay.onCloseHandler code s = { s with isConnecting := false })
    ∧ (10 < s.reconnectAttempts →
        ClientRelay.reconnectTimerFire s = { s with notifiedExhausted := true })
    ∧ (s.isConnecting = false → s.ws ≠ some ReadyState.OPEN →
        (ClientRelay.connect s).transportsCreated = s.transportsCreated + 1
        ∧ (ClientRelay.connect s).reconnectAttempts = s.reconnectAttempts)
    ∧ (ClientRelay.onOpenHandler ok s).reconnectAttempts = 0 := by
  refine ⟨?_, ?_, ?_, ?_⟩
  · intro h
    unfold ClientRelay.onCloseHandler
    rw [if_neg]
    intro hc
    exact h hc.2
  · intro h
    unfold ClientRelay.reconnectTimerFire
    rw [if_neg]
    unfold ClientRelay.maxReconnectAttempts
    omega
  · intro h1 h2
    unfold ClientRelay.connect
    rw [if_neg]
    · exact ⟨rfl, rfl⟩
    · rintro (hc | hc)
      · rw [h1] at hc
        cases hc
      · exact h2 hc
  · rfl

/-- Witness for C4 (amended) at concrete exhausted states. -/
theorem C4_reconnect_exhaustion_witness :
    ClientRelay.onCloseHandler 1006
        ⟨some ReadyState.CLOSED, true, 10, [], [], [], 1, false⟩
      = ⟨some ReadyState.CLOSED, false, 10, [], [], [], 1, false⟩
    ∧ ClientRelay.reconnectTimerFire
        ⟨some ReadyState.CLOSED, false, 11, [], [], [], 1, false⟩
      = ⟨some ReadyState.CLOSED, false, 11, [], [], [], 1, true⟩
    ∧ ((ClientRelay.connect ⟨none, false, 10, [2], [], [], 0, false⟩).transportsCreated
          = 0 + 1
        ∧ (ClientRelay.connect ⟨none, false, 10, [2], [], [], 0, false⟩).reconnectAttempts
          = 10)
    ∧ (ClientRelay.onOpenHandler [true]
        ⟨some ReadyState.OPEN, false, 10, [2], [], [], 1, false⟩).reconnectAttempts
      = 0 := by
  refine ⟨?_, ?_, ?_, ?_⟩
  · exact (C4_reconnect_exhaustion
      ⟨some ReadyState.CLOSED, true, 10, [], [], [], 1, false⟩ 1006 []).1 (by decide)
  · exact (C4_reconnect_exhaustion
      ⟨some ReadyState.CLOSED, false, 11, [], [], [], 1, false⟩ 1006 []).2.1 (by decide)
  · exact (C4_reconnect_exhaustion
      ⟨none, false, 10, [2], [], [], 0, false⟩ 1006 []).2.2.1 (by decide) (by decide)
  · exact (C4_reconnect_exhaustion
      ⟨some ReadyState.OPEN, false, 10, [2], [], [], 1, false⟩ 1006 [true]).2.2.2

/-- C5: the code contradicts the claim (and its own comment "prevent
reconnection") on a concrete run.  A reconnect timer with delay 15000 is
already scheduled (after 3 failed attempts) when the user calls
`disconnect()`.  `disconnect()` sets the counter to the maximum and nulls
the transport but cancels no timer (there is no `clearTimeout` in the
class); when the timer fires, its guard `reconnectAttempts <=
maxReconnectAttempts` is `10 <= 10` and passes, so `connect()` runs and
constructs a new transport: a reconnection attempt after `disconnect()`.
Only the third conjunct of the claim holds: the user-initiated close (code
1000) itself schedules nothing new. -/
theorem C5_bug_timer_reconnects_after_disconnect :
    (ClientRelay.disconnect
        ⟨some ReadyState.CLOSED, false, 3, [], [], [15000], 1, false⟩).timers
      = [15000]
    ∧ ClientRelay.reconnectTimerFire
        (ClientRelay.disconnect
          ⟨some ReadyState.CLOSED, false, 3, [], [], [15000], 1, false⟩)
      = ⟨some ReadyState.CONNECTING, true, 10, [], [], [15000], 2, false⟩
    ∧ (ClientRelay.onCloseHandler 1000
        (ClientRelay.disconnect
          ⟨some ReadyState.CLOSED, false, 3, [], [], [15000], 1, false⟩)).timers
      = [15000] := by
  decide

/-- C6 counterexample: a non-user-initiated close (code 1006) arriving with
the attempt counter already at the maximum (10) increments nothing and
schedules nothing — the state is returned unchanged — refuting "on every
non-user-initiated transition to CLOSED, the relay first increments the
attempt counter and then schedules exactly one reconnect attempt". -/
theorem C6_counterexample_no_schedule_at_max :
    ClientRelay.onCloseHandler 1006
        ⟨some ReadyState.CLOSED, false, 10, [], [], [], 1, false⟩
      = ⟨some ReadyState.CLOSED, false, 10, [], [], [], 1, false⟩ := by
  decide

/-- C6 (amended): on a non-user-initiated `CLOSED` transition while the
attempt counter is below the maximum (10), both relay instances first
increment the counter and then schedule exactly one reconnect timer with
delay `min(5000 * attemptNumber, 30000)` milliseconds, where
`attemptNumber` is the incremented counter.  (The edge relay's close
handler does not consult the close code; its cap lives inside
`scheduleReconnect`.) -/
theorem C6_reconnect_delay_formula (s : ClientRelay.WebSocketManager)
    (code : Nat) (t : EdgeRelay.WebSocketManager) :
    (code ≠ 1000 → s.reconnectAttempts < 10 →
        (ClientRelay.onCloseHandler code s).reconnectAttempts
            = s.reconnectAttempts + 1
        ∧ (ClientRelay.onCloseHandler code s).timers
            = s.timers ++ [min (5000 * (s.reconnectAttempts + 1)) 30000])
    ∧ (t.reconnectAttempts < 10 →
        (EdgeRelay.onCloseHandler t).reconnectAttempts
            = t.reconnectAttempts + 1
        ∧ (EdgeRelay.onCloseHandler t).timersReconnect
            = t.timersReconnect ++ [min (5000 * (t.reconnectAttempts + 1)) 30000]) := by
  constructor
  · intro hcode hlt
    unfold ClientRelay.onCloseHandler
    rw [if_pos ⟨hcode, hlt⟩]
    exact ⟨rfl, rfl⟩
  · intro hlt
    unfold EdgeRelay.onCloseHandler EdgeRelay.scheduleReconnect
    rw [if_neg]
    · exact ⟨rfl, rfl⟩
    · unfold EdgeRelay.maxReconnectAttempts
      change ¬ (10 ≤ t.reconnectAttempts)
      omega

/-- Witness for C6 (amended): client at 2 prior attempts gets delay
min(5000·3, 30000) = 15000; edge at 9 prior attempts gets
min(5000·10, 30000) = 30000. -/
theorem C6_reconnect_delay_formula_witness :
    ((ClientRelay.onCloseHandler 1006
        ⟨some ReadyState.CLOSED, true, 2, [], [], [5000, 10000], 1, false⟩).reconnectAttempts
      = 2 + 1
    ∧ (ClientRelay.onCloseHandler 1006
        ⟨some ReadyState.CLOSED, true, 2, [], [], [5000, 10000], 1, false⟩).timers
      = [5000, 10000] ++ [min (5000 * (2 + 1)) 30000])
    ∧ ((EdgeRelay.onCloseHandler
        ⟨some ReadyState.CLOSED, 9, true, [], [], [], [], 1, 0⟩).reconnectAttempts
      = 9 + 1
    ∧ (EdgeRelay.onCloseHandler
        ⟨some ReadyState.CLOSED, 9, true, [], [], [], [], 1, 0⟩).timersReconnect
      = [] ++ [min (5000 * (9 + 1)) 30000]) :=
  ⟨(C6_reconnect_delay_formula
      ⟨some ReadyState.CLOSED, true, 2, [], [], [5000, 10000], 1, false⟩ 1006
      ⟨some ReadyState.CLOSED, 9, true, [], [], [], [], 1, 0⟩).1
    (by decide) (by decide),
   (C6_reconnect_delay_formula
      ⟨some ReadyState.CLOSED, true, 2, [], [], [5000, 10000], 1, false⟩ 1006
      ⟨some ReadyState.CLOSED, 9, true, [], [], [], [], 1, 0⟩).2 (by decide)⟩
